import Mathlib

/-!
Shallow embedding of `wgengine/monitor/monitor_windows.go` (package `monitor`):
the Windows push-to-pull network-change bridge `winMon`.

Modelling conventions:

* Go errors are `GoError`: the package-level `errClosed` plus opaque OS errors
  identified by a numeric code.
* `m.ctx` / `m.cancel` (a `context.WithCancel` pair) is modelled by the Boolean
  field `closed`: `closed = true` iff `m.cancel()` has run, which is exactly
  when `m.ctx.Err() != nil` and when `m.ctx.Done()` is ready.
* `m.messagec = make(chan eventMessage, 1)` is modelled by `Chan`: a capacity
  field (1, taken from the source) plus the list of buffered messages.
* The two `winipcfg` callback handles are modelled as `Option Unit` (`some ()`
  = non-nil handle, `none` = nil), and the OS side of the registrations by
  `OSState`. The `winipcfg` library is outside this repository, so its calls
  are oracles: a `Register...` or `Unregister` call is given its result
  (`none` = success). An `Unregister` that fails leaves the registration in
  place on the OS side; this matches the package's own treatment, whose
  `Close` keeps the handle non-nil when `Unregister` fails so that a later
  `Close` retries exactly the failed releases.
* A Go `select` with several *ready* communication cases chooses among them
  uniformly at random (Go spec, select statements). Each select here therefore
  takes a Boolean pick that resolves the choice when both of its cases are
  ready; a select with no ready case blocks, modelled as `none`.
-/

namespace Monitor

/-- Go errors visible in this file: `errClosed` (`errors.New("closed")`) and
opaque errors coming back from the OS / `winipcfg`, identified by a code. -/
inductive GoError where
  | errClosed : GoError
  | osErr : Nat → GoError
deriving DecidableEq, Repr

/-- `type eventMessage struct { eventType string }` -/
structure eventMessage where
  eventType : String
deriving DecidableEq, Repr

/-- `func (eventMessage) ignore() bool { return false }` -/
def eventMessage.ignore (_ : eventMessage) : Bool := false

/-- A buffered Go channel of `eventMessage`: capacity plus current buffer.
`messagec` is created with capacity 1 (`make(chan eventMessage, 1)`). -/
structure Chan where
  cap : Nat
  buf : List eventMessage
deriving DecidableEq, Repr

/-- A send on the channel is ready iff the buffer has a free slot. -/
def Chan.sendReady (c : Chan) : Bool := c.buf.length < c.cap

/-- A receive from the channel is ready iff the buffer is nonempty. -/
def Chan.recvReady (c : Chan) : Bool := !c.buf.isEmpty

/-- The `winMon` struct. `closed` stands for the `ctx`/`cancel` pair (see the
file header); `tickerStopped` records whether `noDeadlockTicker.Stop()` ran.
The `logf` field is dropped: logging has no effect on the modelled state. -/
structure winMon where
  closed : Bool
  messagec : Chan
  addressChangeCallback : Option Unit
  routeChangeCallback : Option Unit
  tickerStopped : Bool
deriving DecidableEq, Repr

/-- The OS side: which of the two notification registrations are currently
held with Windows. -/
structure OSState where
  addrRegistered : Bool
  routeRegistered : Bool
deriving DecidableEq, Repr

/-- The bridge's handles agree with the OS state: a handle is non-nil exactly
when the corresponding OS registration is held. `newOSMon` establishes this
and `Close` preserves it. -/
def WF (m : winMon) (os : OSState) : Prop :=
  m.addressChangeCallback.isSome = os.addrRegistered ∧
  m.routeChangeCallback.isSome = os.routeRegistered

instance (m : winMon) (os : OSState) : Decidable (WF m os) := by
  unfold WF; infer_instance

/-- Results of the `winipcfg` calls made by `newOSMon`, in source order
(`none` = the call succeeds). `rollbackUnreg` is the result of
`m.addressChangeCallback.Unregister()` on the route-registration-failure
path; the source discards it. -/
structure RegResults where
  addrReg : Option GoError
  routeReg : Option GoError
  rollbackUnreg : Option GoError
deriving DecidableEq, Repr

/-- The OS calls `newOSMon` can make, with each call's result. -/
inductive OSCall where
  | registerAddr (err : Option GoError)
  | registerRoute (err : Option GoError)
  | unregisterAddr (err : Option GoError)
deriving DecidableEq, Repr

/-- The freshly constructed monitor of a fully successful `newOSMon`:
`messagec` has capacity 1 and both callbacks are registered. -/
def mon0 : winMon :=
  { closed := false
    messagec := { cap := 1, buf := [] }
    addressChangeCallback := some ()
    routeChangeCallback := some ()
    tickerStopped := false }

/-- `newOSMon` (monitor_windows.go:42-66), given the results of its OS calls.
Returns the Go result, the OS registration state on return, and the list of
OS calls performed, in order.

* address-change registration fails: the error is returned, nothing is
  registered.
* route-change registration fails: `m.addressChangeCallback.Unregister()` is
  called (its result discarded), then the error is returned; the
  address-change registration remains held iff that rollback release failed.
* both succeed: the bridge is returned with a fresh (uncancelled) context. -/
def newOSMon (o : RegResults) : Except GoError winMon × OSState × List OSCall :=
  match o.addrReg with
  | some e => (.error e, ⟨false, false⟩, [.registerAddr (some e)])
  | none =>
    match o.routeReg with
    | some e =>
      match o.rollbackUnreg with
      | none =>
        (.error e, ⟨false, false⟩,
          [.registerAddr none, .registerRoute (some e), .unregisterAddr none])
      | some e2 =>
        (.error e, ⟨true, false⟩,
          [.registerAddr none, .registerRoute (some e), .unregisterAddr (some e2)])
    | none => (.ok mon0, ⟨true, true⟩, [.registerAddr none, .registerRoute none])

/-- Results of the `Unregister` calls a single `Close` call may make
(`none` = success). -/
structure UnregResults where
  addrUnreg : Option GoError
  routeUnreg : Option GoError
deriving DecidableEq, Repr

/-- The actions `Close` performs, in order. -/
inductive CloseAction where
  | cancelCtx
  | stopTicker
  | unregisterAddr (err : Option GoError)
  | unregisterRoute (err : Option GoError)
deriving DecidableEq, Repr

/-- Everything a `Close` call produces: the monitor and OS state on return,
the returned error (`none` = nil), and the actions performed, in order. -/
structure CloseOut where
  mon : winMon
  os : OSState
  ret : Option GoError
  trace : List CloseAction
deriving DecidableEq, Repr

/-- The `if m.addressChangeCallback != nil { ... }` block of `Close`
(monitor_windows.go:72-79): skipped when the handle is nil; on `Unregister`
failure the error is recorded and the handle (and OS registration) kept; on
success the handle is nilled and the OS registration dropped. Returns the
updated monitor and OS state, the recorded error, and the calls made. -/
def closeAddrBlock (m : winMon) (os : OSState) (res : Option GoError) :
    winMon × OSState × Option GoError × List CloseAction :=
  match m.addressChangeCallback with
  | none => (m, os, none, [])
  | some _ =>
    match res with
    | some e => (m, os, some e, [.unregisterAddr (some e)])
    | none =>
      ({ m with addressChangeCallback := none },
        { os with addrRegistered := false }, none, [.unregisterAddr none])

/-- The `if m.routeChangeCallback != nil { ... }` block of `Close`
(monitor_windows.go:81-88), same shape as `closeAddrBlock`. -/
def closeRouteBlock (m : winMon) (os : OSState) (res : Option GoError) :
    winMon × OSState × Option GoError × List CloseAction :=
  match m.routeChangeCallback with
  | none => (m, os, none, [])
  | some _ =>
    match res with
    | some e => (m, os, some e, [.unregisterRoute (some e)])
    | none =>
      ({ m with routeChangeCallback := none },
        { os with routeRegistered := false }, none, [.unregisterRoute none])

/-- `winMon.Close` (monitor_windows.go:68-91), given the results of the
`Unregister` calls it makes: `m.cancel()`, then `m.noDeadlockTicker.Stop()`,
then the address-change block, then the route-change block. `ret` starts nil
and is overwritten by each failing `Unregister`, so the route error, when the
route release is attempted and fails, wins over an earlier address error. -/
def close (m : winMon) (os : OSState) (o : UnregResults) : CloseOut :=
  let m1 : winMon := { m with closed := true, tickerStopped := true }
  let a := closeAddrBlock m1 os o.addrUnreg
  let r := closeRouteBlock a.1 a.2.1 o.routeUnreg
  { mon := r.1
    os := r.2.1
    ret := match r.2.2.1 with
           | some e => some e
           | none => a.2.2.1
    trace := [.cancelCtx, .stopTicker] ++ a.2.2.2 ++ r.2.2.2 }

/-- The result of a completed `Receive` call: `(msg, nil)` or
`(nil, errClosed)`. -/
inductive RecvResult where
  | ok (msg : eventMessage)
  | err (e : GoError)
deriving DecidableEq, Repr

/-- The guard at the top of `Receive` (monitor_windows.go:94-97):
`if m.ctx.Err() != nil { return nil, errClosed }`. `some r` means the call
returns `r` immediately without blocking; `none` means it proceeds to the
select. -/
def receiveEnter (m : winMon) : Option RecvResult :=
  if m.closed then some (.err .errClosed) else none

/-- One resolution attempt of the `select` inside `Receive`
(monitor_windows.go:101-107) at the monitor's current state. Its cases:
receive from `messagec` (ready iff the buffer is nonempty) and `<-ctx.Done()`
(ready iff cancelled). `pickMsg` resolves the pseudo-random choice when both
are ready. `none`: no case ready, the call stays blocked. -/
def receiveSelect (m : winMon) (pickMsg : Bool) :
    Option (winMon × RecvResult) :=
  if m.messagec.recvReady && (pickMsg || !m.closed) then
    match m.messagec.buf with
    | msg :: rest =>
      some ({ m with messagec := { m.messagec with buf := rest } }, .ok msg)
    | [] => none
  else if m.closed then some (m, .err .errClosed)
  else none

/-- One resolution attempt of the `select` in `somethingChanged`
(monitor_windows.go:123-130) for a hand-off goroutine carrying tag `evt`.
Cases: `<-m.ctx.Done()` (return, abandoning the event) and
`m.messagec <- eventMessage{eventType: evt}` (ready iff the capacity-1 buffer
has a free slot). `pickDone` resolves the pseudo-random choice when both are
ready. Result: `some (m, false)` = returned without enqueueing,
`some (m2, true)` = the event was enqueued, `none` = neither case ready, the
goroutine stays blocked. -/
def somethingChanged (m : winMon) (evt : String) (pickDone : Bool) :
    Option (winMon × Bool) :=
  if m.closed && (pickDone || !m.messagec.sendReady) then some (m, false)
  else if m.messagec.sendReady then
    some ({ m with messagec :=
             { m.messagec with buf := m.messagec.buf ++ [⟨evt⟩] } }, true)
  else none

/-- The whole system: the monitor, the OS registration state, and the tags of
the spawned `somethingChanged` goroutines that have not yet finished. -/
structure Sys where
  mon : winMon
  os : OSState
  pending : List String
deriving DecidableEq, Repr

/-- `winMon.unicastAddressChanged` (monitor_windows.go:111-114): the OS
callback spawns `go m.somethingChanged("addr")` and returns at once. -/
def unicastAddressChanged (s : Sys) : Sys :=
  { s with pending := s.pending ++ ["addr"] }

/-- `winMon.routeChanged` (monitor_windows.go:117-120): the OS callback
spawns `go m.somethingChanged("route")` and returns at once. -/
def routeChanged (s : Sys) : Sys :=
  { s with pending := s.pending ++ ["route"] }

/-- The system right after a successful `newOSMon`. -/
def initSys : Sys := { mon := mon0, os := ⟨true, true⟩, pending := [] }

/-- Interleaving semantics of the system: OS callbacks fire, pending hand-off
goroutines resolve their select, `Close` runs, and a consumer's `Receive`
select resolves. -/
inductive Step : Sys → Sys → Prop where
  | cbAddr (s : Sys) : Step s (unicastAddressChanged s)
  | cbRoute (s : Sys) : Step s (routeChanged s)
  | handoff (s : Sys) (i : Nat) (pickDone : Bool) (m2 : winMon) (enq : Bool)
      (hi : i < s.pending.length)
      (hr : somethingChanged s.mon (s.pending.get ⟨i, hi⟩) pickDone = some (m2, enq)) :
      Step s { mon := m2, os := s.os, pending := s.pending.eraseIdx i }
  | closeStep (s : Sys) (o : UnregResults) :
      Step s { mon := (close s.mon s.os o).mon, os := (close s.mon s.os o).os,
               pending := s.pending }
  | recvStep (s : Sys) (pickMsg : Bool) (m2 : winMon) (r : RecvResult)
      (hr : receiveSelect s.mon pickMsg = some (m2, r)) :
      Step s { mon := m2, os := s.os, pending := s.pending }

/-- Reachability from the freshly constructed system. -/
def Reachable (s : Sys) : Prop := Relation.ReflTransGen Step initSys s

/-- The monitor right after a successful `Close` of a fresh bridge: cancelled,
empty queue, both handles nilled, ticker stopped. -/
def mClosed : winMon := (close mon0 ⟨true, true⟩ ⟨none, none⟩).mon

/-! ## Helper lemmas -/

lemma close_mon_messagec (m : winMon) (os : OSState) (o : UnregResults) :
    (close m os o).mon.messagec = m.messagec := by
  rcases m with ⟨c, ch, a, r, t⟩
  rcases o with ⟨ao, ro⟩
  cases a <;> cases r <;> cases ao <;> cases ro <;>
    simp [close, closeAddrBlock, closeRouteBlock]

lemma somethingChanged_cases (m : winMon) (evt : String) (p : Bool)
    (m2 : winMon) (enq : Bool)
    (h : somethingChanged m evt p = some (m2, enq)) :
    (m2 = m ∧ enq = false ∧ m.closed = true) ∨
    (enq = true ∧ m.messagec.sendReady = true ∧
      m2 = { m with messagec :=
               { m.messagec with buf := m.messagec.buf ++ [⟨evt⟩] } }) := by
  unfold somethingChanged at h
  split at h
  · rename_i hc
    simp only [Option.some.injEq, Prod.mk.injEq] at h
    exact Or.inl ⟨h.1.symm, h.2.symm, (Bool.and_eq_true _ _ |>.mp hc).1⟩
  · split at h
    · rename_i hs
      simp only [Option.some.injEq, Prod.mk.injEq] at h
      exact Or.inr ⟨h.2.symm, hs, h.1.symm⟩
    · exact absurd h (by simp)

lemma receiveSelect_cases (m : winMon) (p : Bool) (m2 : winMon) (r : RecvResult)
    (h : receiveSelect m p = some (m2, r)) :
    (∃ msg rest, m.messagec.buf = msg :: rest ∧ r = .ok msg ∧
       m2 = { m with messagec := { m.messagec with buf := rest } }) ∨
    (m.closed = true ∧ r = .err GoError.errClosed ∧ m2 = m) := by
  unfold receiveSelect at h
  split at h
  · rename_i hready
    cases hbuf : m.messagec.buf with
    | nil =>
      rw [hbuf] at h
      exact absurd h (by simp)
    | cons msg rest =>
      rw [hbuf] at h
      simp only [Option.some.injEq, Prod.mk.injEq] at h
      exact Or.inl ⟨msg, rest, rfl, h.2.symm, h.1.symm⟩
  · split at h
    · rename_i hclosed
      simp only [Option.some.injEq, Prod.mk.injEq] at h
      exact Or.inr ⟨hclosed, h.2.symm, h.1.symm⟩
    · exact absurd h (by simp)

lemma receiveSelect_none_iff (m : winMon) (p : Bool) :
    receiveSelect m p = none ↔ (m.messagec.buf = [] ∧ m.closed = false) := by
  unfold receiveSelect
  rcases m with ⟨c, ⟨cap, buf⟩, a, r, t⟩
  cases c <;> cases buf <;> cases p <;>
    simp [Chan.recvReady]

/-- The closed monitor with the hand-off's event deposited in the slot. -/
def mAddrQueued : winMon :=
  { mClosed with messagec := { cap := 1, buf := [⟨"addr"⟩] } }

/-- The single-slot bound maintained by every step: the channel keeps its
source capacity of 1 and never holds more than one message. -/
def SysInv (s : Sys) : Prop :=
  s.mon.messagec.cap = 1 ∧ s.mon.messagec.buf.length ≤ 1

lemma step_preserves_sysInv {s s2 : Sys} (hstep : Step s s2) (h : SysInv s) :
    SysInv s2 := by
  cases hstep with
  | cbAddr => exact h
  | cbRoute => exact h
  | handoff i p m2 enq hi hr =>
    rcases somethingChanged_cases _ _ _ _ _ hr with ⟨hm, _, _⟩ | ⟨_, hs, hm⟩
    · subst hm; exact h
    · subst hm
      refine ⟨h.1, ?_⟩
      have hlt : s.mon.messagec.buf.length < s.mon.messagec.cap := by
        simpa [Chan.sendReady] using hs
      rw [h.1] at hlt
      simp only [SysInv, List.length_append, List.length_cons, List.length_nil]
      omega
  | closeStep o =>
    exact ⟨by rw [close_mon_messagec]; exact h.1,
           by rw [close_mon_messagec]; exact h.2⟩
  | recvStep p m2 r hr =>
    rcases receiveSelect_cases _ _ _ _ hr with ⟨msg, rest, hbuf, _, hm⟩ | ⟨_, _, hm⟩
    · subst hm
      refine ⟨h.1, ?_⟩
      have h2 := h.2
      rw [hbuf] at h2
      simp only [List.length_cons] at h2
      show rest.length ≤ 1
      omega
    · subst hm; exact h

/-! ## Claim theorems -/

/-- C10: every event produced by this bridge is non-ignorable — the `ignore()`
method of `eventMessage` returns false for every value, so no event handed to
the consumer is ever marked as one to be ignored. -/
theorem C10_ignore_always_false : ∀ e : eventMessage, e.ignore = false :=
  fun _ => rfl

/-- C6: `Close` performs its steps in this order: it triggers the shared
cancellation context first, then stops the heartbeat ticker, then releases the
address-change subscription, then the route-change subscription (each release
attempted exactly when its handle is non-nil); a failed release is recorded
but does not stop the remaining teardown (the route release appears in the
trace whatever the address release returned), and `Close` returns the last
recorded release error, or nil if no release was attempted or every attempted
release succeeded. -/
theorem C6_close_order (m : winMon) (os : OSState) (o : UnregResults) :
    (close m os o).trace =
      [CloseAction.cancelCtx, CloseAction.stopTicker] ++
        (if m.addressChangeCallback.isSome then
           [CloseAction.unregisterAddr o.addrUnreg] else []) ++
        (if m.routeChangeCallback.isSome then
           [CloseAction.unregisterRoute o.routeUnreg] else []) ∧
    (close m os o).ret =
      (if m.routeChangeCallback.isSome && o.routeUnreg.isSome then o.routeUnreg
       else if m.addressChangeCallback.isSome && o.addrUnreg.isSome then o.addrUnreg
       else none) ∧
    (close m os o).mon.closed = true ∧
    (close m os o).mon.tickerStopped = true := by
  rcases m with ⟨c, ch, a, r, t⟩
  rcases o with ⟨ao, ro⟩
  cases a <;> cases r <;> cases ao <;> cases ro <;>
    simp [close, closeAddrBlock, closeRouteBlock]

/-- C9: a subscription handle is set to nil only when its `Unregister` call
succeeds; if an `Unregister` call fails during `Close`, the handle is kept
(unchanged and non-nil), so a subsequent `Close` call attempts the release of
exactly the subscriptions whose release previously failed — only successfully
released (or never-registered) subscriptions are skipped. -/
theorem C9_retry_failed_releases (m : winMon) (os : OSState) (o o2 : UnregResults) :
    (close m os o).mon.addressChangeCallback =
      (if m.addressChangeCallback.isSome && o.addrUnreg.isSome then
         m.addressChangeCallback else none) ∧
    (close m os o).mon.routeChangeCallback =
      (if m.routeChangeCallback.isSome && o.routeUnreg.isSome then
         m.routeChangeCallback else none) ∧
    (close (close m os o).mon (close m os o).os o2).trace =
      [CloseAction.cancelCtx, CloseAction.stopTicker] ++
        (if m.addressChangeCallback.isSome && o.addrUnreg.isSome then
           [CloseAction.unregisterAddr o2.addrUnreg] else []) ++
        (if m.routeChangeCallback.isSome && o.routeUnreg.isSome then
           [CloseAction.unregisterRoute o2.routeUnreg] else []) := by
  rcases m with ⟨c, ch, a, r, t⟩
  rcases o with ⟨ao, ro⟩
  rcases o2 with ⟨ao2, ro2⟩
  cases a <;> cases r <;> cases ao <;> cases ro <;> cases ao2 <;> cases ro2 <;>
    simp [close, closeAddrBlock, closeRouteBlock]

/-- C3: `Close` is idempotent: after a first `Close` whose attempted releases
all succeeded (it returned nil), a second `Close` performs no OS
unregistration work (its trace is just the cancel and ticker-stop steps, both
handles having been nilled), returns nil, and leaves the monitor and the OS
state unchanged — whatever results the OS would have given to `Unregister`
calls the second time. -/
theorem C3_close_idempotent (m : winMon) (os : OSState) (o1 o2 : UnregResults)
    (h : (close m os o1).ret = none) :
    (close (close m os o1).mon (close m os o1).os o2).ret = none ∧
    (close (close m os o1).mon (close m os o1).os o2).trace =
      [CloseAction.cancelCtx, CloseAction.stopTicker] ∧
    (close (close m os o1).mon (close m os o1).os o2).mon = (close m os o1).mon ∧
    (close (close m os o1).mon (close m os o1).os o2).os = (close m os o1).os := by
  rcases m with ⟨c, ch, a, r, t⟩
  rcases o1 with ⟨ao, ro⟩
  cases a <;> cases r <;> cases ao <;> cases ro <;>
    simp_all [close, closeAddrBlock, closeRouteBlock]

/-- Witness for C3: a fresh bridge closed successfully; the second `Close`
returns nil even though the OS would report errors for `Unregister` calls —
none are made. -/
theorem C3_close_idempotent_witness :
    (close (close mon0 ⟨true, true⟩ ⟨none, none⟩).mon
        (close mon0 ⟨true, true⟩ ⟨none, none⟩).os
        ⟨some (GoError.osErr 3), some (GoError.osErr 4)⟩).ret = none ∧
    (close (close mon0 ⟨true, true⟩ ⟨none, none⟩).mon
        (close mon0 ⟨true, true⟩ ⟨none, none⟩).os
        ⟨some (GoError.osErr 3), some (GoError.osErr 4)⟩).trace =
      [CloseAction.cancelCtx, CloseAction.stopTicker] :=
  ⟨(C3_close_idempotent mon0 ⟨true, true⟩ ⟨none, none⟩
      ⟨some (GoError.osErr 3), some (GoError.osErr 4)⟩ (by decide)).1,
   (C3_close_idempotent mon0 ⟨true, true⟩ ⟨none, none⟩
      ⟨some (GoError.osErr 3), some (GoError.osErr 4)⟩ (by decide)).2.1⟩

/-- C1: `Receive` on a bridge whose state is already Closed returns the
closed error immediately without blocking (the entry guard fires before the
select); otherwise it proceeds to the select and blocks exactly while the
queue is empty and cancellation has not fired, and every resolution of that
select either removes an available `ChangeEvent` from the head of the
single-slot queue and returns it with no error, or returns the closed error
when the cancellation context has fired. -/
theorem C1_receive_contract (m : winMon) :
    (m.closed = true → receiveEnter m = some (RecvResult.err GoError.errClosed)) ∧
    (m.closed = false → receiveEnter m = none) ∧
    (∀ pickMsg, receiveSelect m pickMsg = none ↔
       (m.messagec.buf = [] ∧ m.closed = false)) ∧
    (∀ pickMsg m2 r, receiveSelect m pickMsg = some (m2, r) →
       (∃ msg rest, m.messagec.buf = msg :: rest ∧ r = .ok msg ∧
          m2 = { m with messagec := { m.messagec with buf := rest } }) ∨
       (m.closed = true ∧ r = .err GoError.errClosed ∧ m2 = m)) :=
  ⟨fun h => by simp [receiveEnter, h],
   fun h => by simp [receiveEnter, h],
   fun pickMsg => receiveSelect_none_iff m pickMsg,
   fun pickMsg m2 r h => receiveSelect_cases m pickMsg m2 r h⟩

/-- Witness for C1: on the closed fresh bridge the entry guard returns the
closed error at once; on the open fresh bridge it proceeds to the select. -/
theorem C1_receive_contract_witness :
    receiveEnter { mon0 with closed := true } =
      some (RecvResult.err GoError.errClosed) ∧
    receiveEnter mon0 = none :=
  ⟨(C1_receive_contract { mon0 with closed := true }).1 rfl,
   (C1_receive_contract mon0).2.1 rfl⟩

/-- Counterexample to C2 as stated. Run `newOSMon` with: address-change
registration succeeding, route-change registration failing with `osErr 1`,
and the rollback `m.addressChangeCallback.Unregister()` call — whose result
the source discards (monitor_windows.go:58) — failing with `osErr 2`.
Construction fails with the underlying route error and returns no bridge,
yet the address-change subscription is still registered with the OS, so it is
not the case that zero subscriptions remain held on every construction
failure. -/
theorem C2_counterexample :
    (newOSMon ⟨none, some (GoError.osErr 1), some (GoError.osErr 2)⟩).1 =
      .error (GoError.osErr 1) ∧
    (newOSMon ⟨none, some (GoError.osErr 1), some (GoError.osErr 2)⟩).2.1.addrRegistered
      = true := by
  exact ⟨rfl, rfl⟩

/-- C2 (amended): if the address-change registration fails, construction
returns the underlying error with nothing registered. If the route-change
registration fails after the address-change registration succeeded,
construction calls `Unregister` on the address-change subscription before
returning the route error (the rollback call is in the OS-call trace, its
result discarded), and no subscription remains registered provided that
rollback release succeeds — the address-change registration survives exactly
when the rollback release fails. On any construction failure no bridge is
returned, and on success both subscriptions are registered. -/
theorem C2_construction_rollback (o : RegResults) (e : GoError) :
    (o.addrReg = some e →
       newOSMon o = (.error e, ⟨false, false⟩, [OSCall.registerAddr (some e)])) ∧
    (o.addrReg = none → o.routeReg = some e →
       (newOSMon o).1 = .error e ∧
       (newOSMon o).2.2 =
         [OSCall.registerAddr none, OSCall.registerRoute (some e),
          OSCall.unregisterAddr o.rollbackUnreg] ∧
       (newOSMon o).2.1.routeRegistered = false ∧
       (newOSMon o).2.1.addrRegistered = o.rollbackUnreg.isSome) ∧
    (o.addrReg = none → o.routeReg = none →
       newOSMon o =
         (.ok mon0, ⟨true, true⟩,
          [OSCall.registerAddr none, OSCall.registerRoute none])) := by
  rcases o with ⟨ao, ro, uo⟩
  refine ⟨fun h1 => ?_, fun h1 h2 => ?_, fun h1 h2 => ?_⟩ <;>
    subst h1 <;> try subst h2
  · rfl
  · cases uo <;> exact ⟨rfl, rfl, rfl, rfl⟩
  · rfl

/-- Witness for C2 (amended): route registration fails with `osErr 1` and the
rollback release succeeds; the error is propagated, the rollback `Unregister`
appears in the trace, and nothing remains registered. -/
theorem C2_construction_rollback_witness :
    (newOSMon ⟨none, some (GoError.osErr 1), none⟩).1 = .error (GoError.osErr 1) ∧
    (newOSMon ⟨none, some (GoError.osErr 1), none⟩).2.2 =
      [OSCall.registerAddr none, OSCall.registerRoute (some (GoError.osErr 1)),
       OSCall.unregisterAddr none] ∧
    (newOSMon ⟨none, some (GoError.osErr 1), none⟩).2.1.routeRegistered = false ∧
    (newOSMon ⟨none, some (GoError.osErr 1), none⟩).2.1.addrRegistered = Option.isSome (none : Option GoError) :=
  (C2_construction_rollback ⟨none, some (GoError.osErr 1), none⟩
    (GoError.osErr 1)).2.1 rfl rfl

/-- Counterexample to C4 as stated. Close a fresh bridge (both handles
non-nil, both subscriptions registered) with the address-change `Unregister`
failing with `osErr 5` and the route-change `Unregister` succeeding. `Close`
returns (reporting the error), yet the address-change subscription is still
registered with the OS — its handle is even retained for retry — so it is not
the case that every execution of `Close` leaves both subscriptions
unregistered when an `Unregister` call fails. -/
theorem C4_counterexample :
    (close mon0 ⟨true, true⟩ ⟨some (GoError.osErr 5), none⟩).os.addrRegistered = true ∧
    (close mon0 ⟨true, true⟩ ⟨some (GoError.osErr 5), none⟩).mon.addressChangeCallback
      = some () ∧
    (close mon0 ⟨true, true⟩ ⟨some (GoError.osErr 5), none⟩).ret =
      some (GoError.osErr 5) := by
  exact ⟨rfl, rfl, rfl⟩

/-- C4 (amended): for a bridge whose handles agree with the OS registrations,
after `Close` returns a subscription remains registered with the OS exactly
when its handle was present and its `Unregister` call failed in that `Close`;
in particular, whenever every attempted `Unregister` succeeds, no subscription
owned by the bridge remains registered. The handle/OS agreement is
preserved. -/
theorem C4_close_release_accounting (m : winMon) (os : OSState)
    (o : UnregResults) (h : WF m os) :
    (close m os o).os.addrRegistered =
      (m.addressChangeCallback.isSome && o.addrUnreg.isSome) ∧
    (close m os o).os.routeRegistered =
      (m.routeChangeCallback.isSome && o.routeUnreg.isSome) ∧
    WF (close m os o).mon (close m os o).os := by
  rcases m with ⟨c, ch, a, r, t⟩
  rcases os with ⟨oa, orr⟩
  rcases o with ⟨ao, ro⟩
  rcases h with ⟨h1, h2⟩
  simp only [winMon.addressChangeCallback, winMon.routeChangeCallback] at h1 h2
  cases a <;> cases r <;> cases ao <;> cases ro <;>
    simp_all [close, closeAddrBlock, closeRouteBlock, WF]

/-- Witness for C4 (amended): closing the fresh bridge with both `Unregister`
calls succeeding leaves nothing registered. -/
theorem C4_close_release_accounting_witness :
    (close mon0 ⟨true, true⟩ ⟨none, none⟩).os.addrRegistered =
      (mon0.addressChangeCallback.isSome && Option.isSome (none : Option GoError)) ∧
    (close mon0 ⟨true, true⟩ ⟨none, none⟩).os.routeRegistered =
      (mon0.routeChangeCallback.isSome && Option.isSome (none : Option GoError)) :=
  ⟨(C4_close_release_accounting mon0 ⟨true, true⟩ ⟨none, none⟩ (by decide)).1,
   (C4_close_release_accounting mon0 ⟨true, true⟩ ⟨none, none⟩ (by decide)).2.1⟩

/-- Counterexample to C5 as stated. A Go `select` whose cases are both ready
chooses between them pseudo-randomly, so the select in `somethingChanged`
(monitor_windows.go:124-129) may take the send case even though
`<-m.ctx.Done()` is also ready. Concretely: `mClosed` is the monitor after a
fresh bridge was closed (cancellation fired, empty slot). An in-flight
hand-off for an address-change callback can then deposit its event
(`enq = true`), and the resulting system state — closed, with an event
sitting in the queue — is reachable from construction (callback fires, then
`Close` runs, then the hand-off resolves to the send case). Moreover an
in-flight `Receive` select at that state may take the message case and
return the `ChangeEvent` even though the bridge is Closed. So it is not the
case that once Closed no event is ever enqueued, nor that no `ChangeEvent`
is ever returned by `Receive`, nor that every in-flight enqueue attempt
abandons. -/
theorem C5_counterexample :
    mClosed.closed = true ∧
    somethingChanged mClosed "addr" false = some (mAddrQueued, true) ∧
    Reachable { mon := mAddrQueued, os := ⟨false, false⟩, pending := [] } ∧
    receiveSelect mAddrQueued true = some (mClosed, RecvResult.ok ⟨"addr"⟩) := by
  refine ⟨rfl, rfl, ?_, rfl⟩
  refine Relation.ReflTransGen.tail (Relation.ReflTransGen.tail
    (Relation.ReflTransGen.tail Relation.ReflTransGen.refl
      (Step.cbAddr initSys))
    (Step.closeStep (unicastAddressChanged initSys) ⟨none, none⟩)) ?_
  exact Step.handoff _ 0 false mAddrQueued true (by decide) (by decide)

/-- C5 (amended): once the bridge state is Closed, every `Receive` call that
starts after closure returns the closed error immediately; no in-flight
hand-off or in-flight `Receive` select ever blocks again; an in-flight
hand-off can always abandon (and reports nothing — its only outcomes are
abandoning unchanged or, when the slot is free and the select picks the send
case, depositing its event into the slot); and an in-flight `Receive` whose
queue is empty resolves with the closed error. -/
theorem C5_after_close (m : winMon) (evt : String) (pickDone pickMsg : Bool)
    (h : m.closed = true) :
    receiveEnter m = some (RecvResult.err GoError.errClosed) ∧
    somethingChanged m evt pickDone ≠ none ∧
    somethingChanged m evt true = some (m, false) ∧
    (∀ m2, somethingChanged m evt pickDone = some (m2, true) →
       m.messagec.sendReady = true ∧
       m2 = { m with messagec :=
                { m.messagec with buf := m.messagec.buf ++ [⟨evt⟩] } }) ∧
    receiveSelect m pickMsg ≠ none ∧
    (m.messagec.buf = [] →
       receiveSelect m pickMsg = some (m, RecvResult.err GoError.errClosed)) := by
  refine ⟨by simp [receiveEnter, h], ?_, by simp [somethingChanged, h], ?_, ?_, ?_⟩
  · cases hs : m.messagec.sendReady <;> cases pickDone <;>
      simp [somethingChanged, h, hs]
  · intro m2 hm2
    rcases somethingChanged_cases _ _ _ _ _ hm2 with ⟨_, hfalse, _⟩ | ⟨_, hs, hm⟩
    · exact absurd hfalse (by simp)
    · exact ⟨hs, hm⟩
  · intro hnone
    rw [receiveSelect_none_iff] at hnone
    rw [h] at hnone
    exact absurd hnone.2 (by simp)
  · intro hbuf
    simp [receiveSelect, Chan.recvReady, h, hbuf]

/-- Witness for C5 (amended), at the closed fresh bridge: a `Receive` started
after closure fails immediately with the closed error, an in-flight hand-off
can abandon without enqueueing, and an in-flight `Receive` select on the
empty queue resolves with the closed error. -/
theorem C5_after_close_witness :
    receiveEnter mClosed = some (RecvResult.err GoError.errClosed) ∧
    somethingChanged mClosed "addr" true = some (mClosed, false) ∧
    receiveSelect mClosed false = some (mClosed, RecvResult.err GoError.errClosed) :=
  ⟨(C5_after_close mClosed "addr" false false rfl).1,
   (C5_after_close mClosed "addr" false false rfl).2.2.1,
   (C5_after_close mClosed "addr" false false rfl).2.2.2.2.2 rfl⟩

/-- C7: the event queue is the capacity-1 channel from
`make(chan eventMessage, 1)`: in every reachable system state it holds at
most one pending `ChangeEvent`. When the slot is already occupied and the
bridge is not closed, a hand-off task's select has no ready case — it blocks
offering its event, leaving the state unchanged (nothing dropped, nothing
duplicated). When the bridge has been cancelled/closed while the slot is
occupied, the hand-off abandons the attempt: it resolves by returning,
enqueueing nothing and reporting nothing. -/
theorem C7_single_slot (s : Sys) (m : winMon) (evt : String) (pickDone : Bool)
    (hs : Reachable s) :
    (s.mon.messagec.cap = 1 ∧ s.mon.messagec.buf.length ≤ 1) ∧
    (m.closed = false → m.messagec.sendReady = false →
       somethingChanged m evt pickDone = none) ∧
    (m.closed = true → m.messagec.sendReady = false →
       somethingChanged m evt pickDone = some (m, false)) := by
  refine ⟨?_, ?_, ?_⟩
  · have hinv : SysInv s := by
      induction hs with
      | refl => exact ⟨rfl, by decide⟩
      | tail hsteps hstep ih => exact step_preserves_sysInv hstep ih
    exact hinv
  · intro hc hsr
    simp [somethingChanged, hc, hsr]
  · intro hc hsr
    simp [somethingChanged, hc, hsr]

/-- Witness for C7: the fresh system satisfies the slot bound; with the slot
occupied a hand-off blocks while open, and abandons silently once closed. -/
theorem C7_single_slot_witness :
    (initSys.mon.messagec.cap = 1 ∧ initSys.mon.messagec.buf.length ≤ 1) ∧
    somethingChanged { mon0 with messagec := { cap := 1, buf := [⟨"route"⟩] } }
      "addr" false = none ∧
    somethingChanged { mClosed with messagec := { cap := 1, buf := [⟨"route"⟩] } }
      "addr" false =
      some ({ mClosed with messagec := { cap := 1, buf := [⟨"route"⟩] } }, false) :=
  ⟨(C7_single_slot initSys mon0 "addr" false Relation.ReflTransGen.refl).1,
   (C7_single_slot initSys { mon0 with messagec := { cap := 1, buf := [⟨"route"⟩] } }
      "addr" false Relation.ReflTransGen.refl).2.1 rfl rfl,
   (C7_single_slot initSys { mClosed with messagec := { cap := 1, buf := [⟨"route"⟩] } }
      "addr" false Relation.ReflTransGen.refl).2.2 rfl rfl⟩

/-- C8: the event kind is mapped faithfully. The address-change OS callback
spawns exactly one hand-off task tagged "addr" (and the route-change callback
exactly one tagged "route"), touching nothing else; on an open bridge with an
empty slot the hand-off enqueues exactly one `ChangeEvent` carrying its own
tag, and `Receive`'s select then returns that event with no error — an
address callback yields an "addr" event and a route callback a "route"
event, never the other kind. -/
theorem C8_event_kind (s : Sys) (m : winMon) (pickDone pickMsg : Bool)
    (hopen : m.closed = false)
    (hempty : m.messagec = { cap := 1, buf := [] }) :
    ((unicastAddressChanged s).pending = s.pending ++ ["addr"] ∧
     (routeChanged s).pending = s.pending ++ ["route"] ∧
     (unicastAddressChanged s).mon = s.mon ∧
     (routeChanged s).mon = s.mon) ∧
    (somethingChanged m "addr" pickDone =
       some ({ m with messagec := { cap := 1, buf := [⟨"addr"⟩] } }, true) ∧
     receiveSelect { m with messagec := { cap := 1, buf := [⟨"addr"⟩] } } pickMsg =
       some (m, RecvResult.ok ⟨"addr"⟩)) ∧
    (somethingChanged m "route" pickDone =
       some ({ m with messagec := { cap := 1, buf := [⟨"route"⟩] } }, true) ∧
     receiveSelect { m with messagec := { cap := 1, buf := [⟨"route"⟩] } } pickMsg =
       some (m, RecvResult.ok ⟨"route"⟩)) := by
  refine ⟨⟨rfl, rfl, rfl, rfl⟩, ⟨?_, ?_⟩, ⟨?_, ?_⟩⟩ <;>
    simp [somethingChanged, receiveSelect, Chan.sendReady, Chan.recvReady,
      hopen, hempty] <;>
    rw [← hopen, ← hempty]

/-- Witness for C8, on the fresh open bridge: the address hand-off enqueues
an "addr"-tagged event and `Receive` returns it. -/
theorem C8_event_kind_witness :
    somethingChanged mon0 "addr" false =
      some ({ mon0 with messagec := { cap := 1, buf := [⟨"addr"⟩] } }, true) ∧
    receiveSelect { mon0 with messagec := { cap := 1, buf := [⟨"addr"⟩] } } false =
      some (mon0, RecvResult.ok ⟨"addr"⟩) :=
  (C8_event_kind initSys mon0 false false rfl rfl).2.1

end Monitor
